import Mathlib

/- Shallow embedding of the snark endpoint (api/snark.js and the earlier
   variants of the same file kept in the repository) together with proofs
   about its parsing, item resolution, context aggregation, rendering,
   retry and top-level response behaviour.

   Strings are modelled as lists of characters so that every operation
   (trimming, splitting, joining, slicing) is a structurally recursive
   function that the kernel can evaluate.  JavaScript truthiness of a
   string value is emptiness of the list; a nullable string is an
   Option. -/

namespace Snark

/-- JavaScript strings, modelled as lists of characters. -/
abbrev Str := List Char

/-- Convert a Lean string literal to the character-list model. -/
def chars (s : String) : Str := s.data

/-- Whitespace test used by trimming (covers the ASCII whitespace that the
    configuration strings can contain). -/
def isWs (c : Char) : Bool :=
  c == ' ' || c == '\t' || c == '\n' || c == '\r'

/-- JS String.prototype.trim: drop leading and trailing whitespace. -/
def jsTrim (s : Str) : Str :=
  ((s.dropWhile isWs).reverse.dropWhile isWs).reverse

/-- JS String.prototype.split with a one-character separator:
    "a,b".split(",") = ["a","b"], "".split(",") = [""]. -/
def jsSplitOnChar (sep : Char) (s : Str) : List Str :=
  s.foldr
    (fun c acc =>
      if c == sep then [] :: acc
      else
        match acc with
        | [] => [[c]]
        | h :: t => (c :: h) :: t)
    [[]]

/-- The .replace of underscores by spaces applied to both sides of a
    class-map entry (src/api/snark.js lines 46-47). -/
def underscoresToSpaces (s : Str) : Str :=
  s.map (fun c => if c == '_' then ' ' else c)

/-- One parsed entry of NOTION_CLASS_MAP (src/api/snark.js lines 45-48). -/
structure ClassMapping where
  checkbox : Str
  textProp : Str
  deriving DecidableEq, Repr

/-- Processing of one comma-separated segment of NOTION_CLASS_MAP
    (src/api/snark.js lines 42-49): split on ":", trim the parts,
    destructure the first two (missing parts read as ""), reject the entry
    when either side is empty, else expand underscores on both sides. -/
def parseEntry (pair : Str) : Option ClassMapping :=
  let parts := (jsSplitOnChar ':' pair).map jsTrim
  let checkbox := parts.getD 0 []
  let textProp := parts.getD 1 []
  if checkbox = [] || textProp = [] then none
  else some ⟨underscoresToSpaces checkbox, underscoresToSpaces textProp⟩

/-- parseClassMap (src/api/snark.js lines 36-51): split the raw
    environment string on ",", trim each segment, drop empty segments,
    and keep the well-formed entries. -/
def parseClassMap (raw : Str) : List ClassMapping :=
  (((jsSplitOnChar ',' raw).map jsTrim).filter (fun s => s ≠ [])).filterMap parseEntry

/-- One Notion page property as the code observes it.  A property that is
    not rich_text-typed reads its rich_text as the empty array (the code
    collapses undefined to [] with a fallback), and likewise for title.
    dateStart is the optional chain due.date?.start: none when the
    property is not date-typed at that level, the date object is null, or
    start is null; some s when a start string s is present. -/
structure NotionProp where
  type : Str
  rich_text : List Str
  title : List Str
  dateStart : Option Str
  deriving DecidableEq, Repr

/-- A raw Notion page record: its properties map, as an association list
    from property name to property value. -/
abbrev Page := List (Str × NotionProp)

/-- page.properties?.[key]: first property with the given name. -/
def propLookup (page : Page) (key : Str) : Option NotionProp :=
  (page.find? (fun kv => kv.1 == key)).map (fun kv => kv.2)

/-- page.properties?.[p]?.rich_text || [] (src/api/snark.js line 103). -/
def richTextOf (page : Page) (p : Str) : List Str :=
  ((propLookup page p).map (fun q => q.rich_text)).getD []

/-- page.properties?.[p]?.title || [] (src/api/snark.js line 107). -/
def titleOf (page : Page) (p : Str) : List Str :=
  ((propLookup page p).map (fun q => q.title)).getD []

/-- The truthy due-start value: due?.type === "date" && due.date?.start
    (src/api/snark.js lines 112-113 and 121-122).  Yields the start
    string exactly when the property is date-typed and the start chain is
    truthy (present and a non-empty string). -/
def dueTruthy (page : Page) (due : Str) : Option Str :=
  match propLookup page due with
  | some p =>
      if p.type = chars "date" then
        match p.dateStart with
        | some s => if s = [] then none else some s
        | none => none
      else none
  | none => none

/-- One resolved pending item: the display name and the optional raw due
    start string (src/api/snark.js line 124). -/
structure PendingItem where
  name : Str
  dueIso : Option Str
  deriving DecidableEq, Repr

/-- The three-tier name resolution of one page (src/api/snark.js lines
    102-118): concatenated class rich_text, else concatenated title, else
    the synthesized textProp label suffixed with " assignment", with the
    day-truncated due date in parentheses when the due chain is truthy. -/
def resolveName (textProp titleProp due : Str) (page : Page) : Str :=
  let n1 := jsTrim (richTextOf page textProp).flatten
  if n1 ≠ [] then n1
  else
    let n2 := jsTrim (titleOf page titleProp).flatten
    if n2 ≠ [] then n2
    else
      match dueTruthy page due with
      | some s => textProp ++ chars " assignment (" ++ s.take 10 ++ chars ")"
      | none => textProp ++ chars " assignment"

/-- The item resolver applied to one raw page (src/api/snark.js lines
    102-124): name by three-tier fallback, dueIso as the raw (untruncated)
    start string when the due chain is truthy. -/
def resolveItem (textProp titleProp due : Str) (page : Page) : PendingItem :=
  ⟨resolveName textProp titleProp due page, dueTruthy page due⟩

/-- One per-class pending summary (src/api/snark.js line 127). -/
structure ClassSummary where
  className : Str
  items : List PendingItem
  deriving DecidableEq, Repr

/-- The aggregated context returned by fetchContextFromNotion
    (src/api/snark.js lines 131). -/
structure AggregatedContext where
  perClass : List ClassSummary
  doneApprox : Nat
  reason : Str
  deriving DecidableEq, Repr

/-- Rendering of one item in the compact context (src/api/snark.js lines
    214-217): the bare name when dueIso is falsy, otherwise the name with
    the due date truncated to 10 characters. -/
def renderItem (it : PendingItem) : Str :=
  match it.dueIso with
  | some d => if d = [] then it.name else it.name ++ chars " (due " ++ d.take 10 ++ chars ")"
  | none => it.name

/-- Rendering of one class line: at most the first two items, joined by
    "; " (src/api/snark.js lines 214-218). -/
def renderClass (cs : ClassSummary) : Str :=
  cs.className ++ chars ": " ++ List.intercalate (chars "; ") ((cs.items.take 2).map renderItem)

/-- The compact context string built by the handler (src/api/snark.js
    lines 212-222): the per-class lines joined by " | " behind the done
    count, or the fixed sentinel when there are no classes. -/
def renderContext (ctx : AggregatedContext) : Str :=
  let parts := ctx.perClass.map renderClass
  if parts = [] then chars "No pending items found or mapping empty."
  else
    chars "Done approx: " ++ Nat.toDigits 10 ctx.doneApprox
      ++ chars ". Pending by class → " ++ List.intercalate (chars " | ") parts

/-- The environment configuration read by fetchContextFromNotion.  A
    missing environment variable and an empty one are both falsy in the
    code, so both are modelled as the empty string. -/
structure NotionEnv where
  token : Str
  dbId : Str
  classMapRaw : Str
  duePropEnv : Str
  titlePropEnv : Str
  deriving DecidableEq, Repr

/-- Outcome of one Notion query as the code distinguishes them: the await
    rejected (timeout or transport failure), the parsed response was falsy
    or an error object, or it carried a (possibly empty) results array. -/
inductive QueryOutcome where
  | threw (e : Str)
  | errorObj
  | ok (results : List Page)

/-- The per-class pending loop (src/api/snark.js lines 91-129): for the
    i-th mapping, a thrown or error response is swallowed and the class is
    skipped; an ok response has its pages resolved, and the class is kept
    only when it yields at least one item. -/
def pendingLoop (titleProp due : Str) (pending : Nat → QueryOutcome) :
    Nat → List ClassMapping → List ClassSummary
  | _, [] => []
  | i, m :: rest =>
    let tail := pendingLoop titleProp due pending (i + 1) rest
    match pending i with
    | .ok results =>
        let items := results.map (resolveItem m.textProp titleProp due)
        if items = [] then tail else ⟨m.textProp, items⟩ :: tail
    | _ => tail

/-- fetchContextFromNotion (src/api/snark.js lines 59-132), with the
    network abstracted into the outcome of the done query and an oracle
    for the i-th per-class pending query.  Missing token or database id
    short-circuits; the done count is the length of the done query results
    when the mapping list is non-empty and the query succeeded; the reason
    is ok exactly when some class produced items. -/
def fetchContextFromNotion (env : NotionEnv) (doneResp : QueryOutcome)
    (pending : Nat → QueryOutcome) : AggregatedContext :=
  if env.token = [] ∨ env.dbId = [] then ⟨[], 0, chars "missing_notion_env"⟩
  else
    let due := if env.duePropEnv = [] then chars "Date" else env.duePropEnv
    let titleProp := if env.titlePropEnv = [] then chars "Name" else env.titlePropEnv
    let classMap := parseClassMap env.classMapRaw
    let doneApprox :=
      if classMap = [] then 0
      else
        match doneResp with
        | .ok results => results.length
        | _ => 0
    let perClass := pendingLoop titleProp due pending 0 classMap
    ⟨perClass, doneApprox,
      if perClass = [] then chars "notion_empty_or_mismatch" else chars "ok"⟩

/-- Outcome of one completion attempt, as the code distinguishes them
    (src/api/snark.js lines 178-196): the fetch or body read rejected, the
    response was non-2xx, JSON.parse threw, or the body parsed with an
    optional choices[0].message.content string. -/
inductive AttemptOutcome where
  | threw (e : Str)
  | httpError (status : Nat) (statusText : Str) (raw : Str)
  | parseFailed (e : Str)
  | parsed (content : Option Str) (raw : Str)

/-- Processing of one attempt (src/api/snark.js lines 185-196): a trimmed
    non-empty completion succeeds; every other outcome produces the
    lastError string recorded by the code, with the raw body sliced to
    sliceLen characters in the HTTP and empty-completion messages. -/
def attemptStep (sliceLen : Nat) : AttemptOutcome → Except Str Str
  | .threw e => .error e
  | .httpError status statusText raw =>
      .error (chars "HTTP " ++ Nat.toDigits 10 status ++ chars " " ++ statusText
        ++ chars " :: " ++ raw.take sliceLen)
  | .parseFailed e => .error e
  | .parsed content raw =>
      match content with
      | some s =>
          let out := jsTrim s
          if out = [] then .error (chars "Empty completion :: " ++ raw.take sliceLen)
          else .ok out
      | none => .error (chars "Empty completion :: " ++ raw.take sliceLen)

/-- The record callOpenRouter returns (src/api/snark.js lines 191 and
    200): the completion text or null, and the last error or null.  There
    is no attempts field. -/
structure ORResult where
  snark : Option Str
  error : Option Str
  deriving DecidableEq, Repr

/-- callOpenRouter (src/api/snark.js lines 175-200): a loop of at most 2
    total attempts, unrolled.  A successful attempt returns at once; after
    both attempts fail the last error is surfaced with a null snark. -/
def callOpenRouter (oracle : Nat → AttemptOutcome) : ORResult :=
  match attemptStep 300 (oracle 0) with
  | .ok out => ⟨some out, none⟩
  | .error _ =>
      match attemptStep 300 (oracle 1) with
      | .ok out => ⟨some out, none⟩
      | .error m1 => ⟨none, some m1⟩

/-- Number of attempts callOpenRouter performs: the loop bound is 2, so a
    first-attempt success uses 1 attempt and every other run uses 2. -/
def callOpenRouterAttempts (oracle : Nat → AttemptOutcome) : Nat :=
  match attemptStep 300 (oracle 0) with
  | .ok _ => 1
  | .error _ => 2

/-- The sleeps callOpenRouter performs (src/api/snark.js line 197): after
    every failed attempt it waits 250ms times the 1-based attempt index,
    including after the final one. -/
def callOpenRouterSleeps (oracle : Nat → AttemptOutcome) : List Nat :=
  match attemptStep 300 (oracle 0) with
  | .ok _ => []
  | .error _ =>
      match attemptStep 300 (oracle 1) with
      | .ok _ => [250]
      | .error _ => [250, 500]

/-- The record callOpenAI returns (src/unnamed/part_000 lines 171 and
    179): completion text or null, last error or null, and the attempts
    count. -/
structure OAIResult where
  snark : Option Str
  error : Option Str
  attempts : Nat
  deriving DecidableEq, Repr

/-- callOpenAI (src/unnamed/part_000 lines 152-179): a loop of at most 3
    total attempts, unrolled.  Success at attempt i returns attempts
    i + 1; on exhaustion the record carries null snark, the last error,
    and attempts 3. -/
def callOpenAI (oracle : Nat → AttemptOutcome) : OAIResult :=
  match attemptStep 300 (oracle 0) with
  | .ok out => ⟨some out, none, 1⟩
  | .error _ =>
      match attemptStep 300 (oracle 1) with
      | .ok out => ⟨some out, none, 2⟩
      | .error _ =>
          match attemptStep 300 (oracle 2) with
          | .ok out => ⟨some out, none, 3⟩
          | .error m2 => ⟨none, some m2, 3⟩

/-- The sleeps callOpenAI performs (src/unnamed/part_000 line 177):
    250ms times the 1-based attempt index after every failed attempt. -/
def callOpenAISleeps (oracle : Nat → AttemptOutcome) : List Nat :=
  match attemptStep 300 (oracle 0) with
  | .ok _ => []
  | .error _ =>
      match attemptStep 300 (oracle 1) with
      | .ok _ => [250]
      | .error _ =>
          match attemptStep 300 (oracle 2) with
          | .ok _ => [250, 500]
          | .error _ => [250, 500, 750]

/-- Whether an attempt outcome fails (produces a lastError rather than a
    completion). -/
def stepFails (sliceLen : Nat) (o : AttemptOutcome) : Bool :=
  match attemptStep sliceLen o with
  | .ok _ => false
  | .error _ => true

/-- The no-context fallback pool (src/unnamed/part_001 lines 221-226). -/
def fallbacksNoCtx : List Str :=
  [chars "Universe vast; your to-do list vaster.",
   chars "New tab opened. Productivity achieved… allegedly.",
   chars "Today’s forecast: 90% chance of postponement.",
   chars "Momentum acquired. Direction… negotiable."]

/-- The with-context fallback pool (src/unnamed/part_001 lines 227-232). -/
def fallbacksWithCtx : List Str :=
  [chars "Assignments multiplying; checkboxes napping. Classic.",
   chars "Your tasks are social—they prefer groups.",
   chars "Progress noted. Procrastination still the fan favorite.",
   chars "Deadlines circling like very punctual vultures."]

/-- The pool the fallback line is drawn from (src/unnamed/part_001 line
    238): the with-context pool when any class has pending items, the
    no-context pool otherwise. -/
def fallbackPool (hasCtx : Bool) : List Str :=
  if hasCtx then fallbacksWithCtx else fallbacksNoCtx

/-- The fallback selection pool[Math.floor(Math.random() * pool.length)]
    (src/unnamed/part_001 line 239), with the random draw made explicit:
    k is the floor of the draw scaled by the pool length. -/
def pickFallback (hasCtx : Bool) (k : Nat) : Str :=
  (fallbackPool hasCtx).getD k []

/-- The local generation step in the signature the specification gives it
    (date seed, salt, context, and the random draw k).  The source code
    of the fallback path (src/unnamed/part_001 lines 234-240) reads no
    date and no salt; the two extra arguments are accepted here only so
    the specified determinism-in-date-and-salt property can be stated
    against the code, and the computation is exactly the source pool
    selection. -/
def localGenerate (dateSeed salt : Str) (hasCtx : Bool) (k : Nat) : Str :=
  pickFallback hasCtx k

/-- The response bodies the two handlers can produce: the plain snark
    object, the explicit OpenRouter error object (src/api/snark.js lines
    244-249), the caught server error object (line 256), and the two
    debug objects (src/api/snark.js lines 231-239, src/unnamed/part_001
    lines 247-256).  The Pragma header and the cache header are carried on
    the response, not in the body. -/
inductive Body where
  | snarkBody (snark : Str)
  | errorBody (error model reason contextUsed : Str)
  | serverErrorBody (error : Str)
  | debugBody (origin : Str) (openrouterError : Option Str) (model reason contextUsed : Str)
      (classMap : List ClassMapping) (snark : Option Str)
  | debugBodyV1 (origin reason : Str) (attempts : Nat) (openaiError : Option Str)
      (model contextUsed : Str) (classMap : List ClassMapping) (snark : Str)
  deriving DecidableEq, Repr

/-- An HTTP response as the handlers build it: status code, Cache-Control
    header, and JSON body. -/
structure Response where
  status : Nat
  cacheControl : Str
  body : Body
  deriving DecidableEq, Repr

/-- Outcome of the handler try-block up to the completion call: either
    both the aggregated context and the completion result were computed,
    or an exception e was thrown somewhere inside the block and control
    reached the catch. -/
inductive StepOutcome (α : Type) where
  | ok (value : α)
  | threw (e : Str)

/-- JS truthiness of a nullable string: false for null and for "". -/
def jsTruthy (o : Option Str) : Bool :=
  match o with
  | some s => !s.isEmpty
  | none => false

/-- The top-level handler of src/api/snark.js (lines 204-258).  On an
    exception anywhere in the try block the catch returns status 500 with
    the Server error body and a short cache.  Otherwise the context is
    rendered; debug mode returns the diagnostic object with status 200
    exactly when a completion is present; non-debug mode returns status
    500 with the explicit OpenRouter error object when the completion is
    falsy, else status 200 with the snark body. -/
def snarkHandler (debug : Bool) (modelEnv classMapRaw : Str)
    (outcome : StepOutcome (AggregatedContext × ORResult)) : Response :=
  match outcome with
  | .threw e => ⟨500, chars "public, s-maxage=30", .serverErrorBody (chars "Server error: " ++ e)⟩
  | .ok (ctx, orRes) =>
      let contextUsed := renderContext ctx
      let model := if modelEnv = [] then chars "openai/gpt-5" else modelEnv
      let cache := chars "public, s-maxage=600, stale-while-revalidate=60"
      if debug then
        ⟨if jsTruthy orRes.snark then 200 else 500, cache,
          .debugBody (if jsTruthy orRes.snark then chars "openrouter" else chars "error")
            orRes.error model ctx.reason contextUsed (parseClassMap classMapRaw)
            (if jsTruthy orRes.snark then orRes.snark else none)⟩
      else if jsTruthy orRes.snark then
        ⟨200, cache, .snarkBody (orRes.snark.getD [])⟩
      else
        ⟨500, cache,
          .errorBody
            (chars "OpenRouter error: "
              ++ (if jsTruthy orRes.error then orRes.error.getD []
                  else chars "OpenRouter returned no content."))
            model ctx.reason contextUsed⟩

/-- The top-level handler of src/unnamed/part_001 (lines 186-264).  Its
    catch returns status 200 with the fixed sentinel remark.  Otherwise
    the line is the completion when truthy, else a fallback drawn from the
    pool matching context presence with the random draw k; both debug and
    non-debug responses carry status 200. -/
def handlerV1 (debug : Bool) (classMapRaw : Str) (k : Nat)
    (outcome : StepOutcome (AggregatedContext × OAIResult)) : Response :=
  match outcome with
  | .threw _ => ⟨200, chars "no-store", .snarkBody (chars "APIs moody. Consider this a mercy recess.")⟩
  | .ok (ctx, oaiRes) =>
      let contextUsed := renderContext ctx
      let hasCtx := !ctx.perClass.isEmpty
      let line := if jsTruthy oaiRes.snark then oaiRes.snark.getD [] else pickFallback hasCtx k
      let origin :=
        if jsTruthy oaiRes.snark then chars "openai"
        else if hasCtx then chars "fallback_with_context" else chars "fallback_no_context"
      let cache := chars "no-store, no-cache, must-revalidate"
      if debug then
        ⟨200, cache,
          .debugBodyV1 origin ctx.reason oaiRes.attempts oaiRes.error (chars "gpt-5")
            contextUsed (parseClassMap classMapRaw) line⟩
      else ⟨200, cache, .snarkBody line⟩

/-- The spec-side truncation of an aggregated context to at most two
    items per class, used to state that rendering shows at most two items
    per class. -/
def capItemsAtTwo (ctx : AggregatedContext) : AggregatedContext :=
  ⟨ctx.perClass.map (fun cs => ⟨cs.className, cs.items.take 2⟩), ctx.doneApprox, ctx.reason⟩

/-- Unfolding of the splitter on a cons cell. -/
theorem jsSplitOnChar_cons (sep a : Char) (l : Str) :
    jsSplitOnChar sep (a :: l) =
      if a == sep then [] :: jsSplitOnChar sep l
      else
        match jsSplitOnChar sep l with
        | [] => [[a]]
        | h :: t => (a :: h) :: t := rfl

/-- A string containing no separator splits into the single segment. -/
theorem jsSplitOnChar_no_sep (sep : Char) (l : Str) (h : ∀ x ∈ l, x ≠ sep) :
    jsSplitOnChar sep l = [l] := by
  induction l with
  | nil => rfl
  | cons a l ih =>
    have ha : (a == sep) = false :=
      beq_eq_false_iff_ne.mpr (h a (List.mem_cons_self a l))
    have ih' : jsSplitOnChar sep l = [l] :=
      ih (fun x hx => h x (List.mem_cons_of_mem a hx))
    rw [jsSplitOnChar_cons, ha, ih']
    simp

/-- Trimming a whitespace-only string yields the empty string. -/
theorem jsTrim_all_ws (l : Str) (h : ∀ c ∈ l, isWs c = true) : jsTrim l = [] := by
  unfold jsTrim
  rw [List.dropWhile_eq_nil_iff.mpr h]
  rfl

/-- A concatenation with a non-empty right part is non-empty. -/
theorem append_right_ne_nil (a : Str) {b : Str} (hb : b ≠ []) : a ++ b ≠ [] :=
  fun h => hb (List.append_eq_nil.mp h).2

/-- C5 counterexample: the entry "_:x" is kept by parseClassMap, and its
    checkboxField is the single space produced by underscore expansion,
    which is empty after trimming — so not every kept entry has a
    checkboxField that is non-empty after trimming. -/
theorem parseClassMap_underscore_entry_whitespace_field :
    parseClassMap (chars "_:x") = [⟨[' '], chars "x"⟩]
    ∧ jsTrim [' '] = [] := by decide

/-- C5 (amended): for every input string the parser returns at most one
    entry per comma-separated segment; every kept entry has fields that
    are non-empty strings with every underscore replaced by a space (a
    field may be whitespace-only when its raw part was all underscores);
    and a whitespace-only input yields the empty sequence. -/
theorem parseClassMap_shape (raw : Str) :
    (parseClassMap raw).length ≤ (jsSplitOnChar ',' raw).length
    ∧ (∀ m ∈ parseClassMap raw,
        m.checkbox ≠ [] ∧ m.textProp ≠ [] ∧ '_' ∉ m.checkbox ∧ '_' ∉ m.textProp)
    ∧ ((∀ c ∈ raw, isWs c = true) → parseClassMap raw = []) := by
  refine ⟨?_, ?_, ?_⟩
  · unfold parseClassMap
    calc ((((jsSplitOnChar ',' raw).map jsTrim).filter (fun s => s ≠ [])).filterMap parseEntry).length
        ≤ (((jsSplitOnChar ',' raw).map jsTrim).filter (fun s => s ≠ [])).length :=
          List.length_filterMap_le _ _
      _ ≤ ((jsSplitOnChar ',' raw).map jsTrim).length := List.length_filter_le _ _
      _ = (jsSplitOnChar ',' raw).length := List.length_map _ _
  · intro m hm
    unfold parseClassMap at hm
    obtain ⟨pair, _, hparse⟩ := List.mem_filterMap.mp hm
    simp only [parseEntry] at hparse
    split at hparse
    · simp at hparse
    · rename_i hcond
      simp only [Bool.or_eq_true, decide_eq_true_eq] at hcond
      push_neg at hcond
      obtain ⟨hcb, htp⟩ := hcond
      obtain rfl := Option.some.inj hparse
      refine ⟨?_, ?_, ?_, ?_⟩
      · intro hnil
        exact hcb (List.map_eq_nil_iff.mp hnil)
      · intro hnil
        exact htp (List.map_eq_nil_iff.mp hnil)
      · intro hmem
        obtain ⟨c, _, hc⟩ := List.mem_map.mp hmem
        by_cases h : c = '_'
        · simp [h] at hc
        · simp [h] at hc
      · intro hmem
        obtain ⟨c, _, hc⟩ := List.mem_map.mp hmem
        by_cases h : c = '_'
        · simp [h] at hc
        · simp [h] at hc
  · intro h
    have hsep : ∀ x ∈ raw, x ≠ ',' := by
      intro x hx heq
      have := h x hx
      rw [heq] at this
      exact absurd this (by decide)
    unfold parseClassMap
    rw [jsSplitOnChar_no_sep ',' raw hsep]
    simp [jsTrim_all_ws raw h]

/-- C5 witness: the parser applied to a whitespace-only string returns
    the empty sequence. -/
theorem parseClassMap_shape_witness : parseClassMap (chars "  ") = [] :=
  (parseClassMap_shape (chars "  ")).2.2 (by decide)

/-- C9: an entry whose colon-split has three or more parts is not
    malformed; the parser keeps the first two trimmed parts as
    checkboxField and textField and silently discards the rest. -/
theorem parseEntry_keeps_first_two_parts (pair a b c : Str) (rest : List Str)
    (hsplit : jsSplitOnChar ':' pair = a :: b :: c :: rest)
    (ha : jsTrim a ≠ []) (hb : jsTrim b ≠ []) :
    parseEntry pair
      = some ⟨underscoresToSpaces (jsTrim a), underscoresToSpaces (jsTrim b)⟩ := by
  unfold parseEntry
  rw [hsplit]
  simp only [List.map_cons, List.getD_cons_zero, List.getD_cons_succ]
  rw [if_neg]
  rw [Bool.or_eq_true, decide_eq_true_eq, decide_eq_true_eq]
  push_neg
  exact ⟨ha, hb⟩

/-- C9 witness: the entry "A:B:C" parses to the mapping (A, B). -/
theorem parseEntry_keeps_first_two_parts_witness :
    parseEntry (chars "A:B:C") = some ⟨chars "A", chars "B"⟩ :=
  parseEntry_keeps_first_two_parts (chars "A:B:C") (chars "A") (chars "B") (chars "C") []
    (by decide) (by decide) (by decide)

/-- C6: the item resolver produces a non-empty name for every raw record
    and every choice of field names: the first two tiers return only when
    non-empty, and the third tier always appends the non-empty literal
    " assignment" (or " assignment (<date>)") to the textField label. -/
theorem resolveItem_name_nonempty (textProp titleProp due : Str) (page : Page) :
    (resolveItem textProp titleProp due page).name ≠ [] := by
  show resolveName textProp titleProp due page ≠ []
  simp only [resolveName]
  by_cases h1 : jsTrim (richTextOf page textProp).flatten = []
  · rw [if_neg (not_not_intro h1)]
    by_cases h2 : jsTrim (titleOf page titleProp).flatten = []
    · rw [if_neg (not_not_intro h2)]
      cases hd : dueTruthy page due with
      | some s => exact append_right_ne_nil _ (by decide)
      | none => exact append_right_ne_nil _ (by decide)
    · rw [if_pos h2]
      exact h2
  · rw [if_pos h1]
    exact h1

/-- C8 counterexample: a record whose due property is date-typed with the
    datetime start 2025-01-02T03:04:05 resolves to a dueIso equal to the
    full 19-character start string, not a day-precision truncation; and a
    record whose start is present but the empty string is date-typed with
    a non-null start yet resolves to no dueIso. -/
theorem resolveItem_dueIso_not_truncated :
    (resolveItem (chars "Cls") (chars "Name") (chars "Date")
        [(chars "Date", ⟨chars "date", [], [], some (chars "2025-01-02T03:04:05")⟩)]).dueIso
      = some (chars "2025-01-02T03:04:05")
    ∧ 10 < (chars "2025-01-02T03:04:05").length
    ∧ (resolveItem (chars "Cls") (chars "Name") (chars "Date")
        [(chars "Date", ⟨chars "date", [], [], some []⟩)]).dueIso = none := by decide

/-- C8 (amended): the resolved dueIso is present exactly when the due
    property is date-typed and its start chain yields a non-empty string,
    and it then equals that raw start string (day-precision truncation
    happens only in rendering and in the synthesized label). -/
theorem resolveItem_dueIso_iff (textProp titleProp due d : Str) (page : Page) :
    (resolveItem textProp titleProp due page).dueIso = some d
      ↔ ∃ p, propLookup page due = some p ∧ p.type = chars "date"
          ∧ p.dateStart = some d ∧ d ≠ [] := by
  rw [show (resolveItem textProp titleProp due page).dueIso = dueTruthy page due from rfl]
  constructor
  · intro h
    unfold dueTruthy at h
    split at h
    · rename_i p hl
      split at h
      · rename_i ht
        split at h
        · rename_i s hd
          split at h
          · simp at h
          · rename_i hs
            obtain rfl := Option.some.inj h
            exact ⟨p, hl, ht, hd, hs⟩
        · simp at h
      · simp at h
    · simp at h
  · rintro ⟨p, hl, ht, hd, hs⟩
    unfold dueTruthy
    rw [hl]
    show (if p.type = chars "date" then
        match p.dateStart with
        | some s => if s = [] then none else some s
        | none => none
      else none) = some d
    rw [if_pos ht, hd]
    show (if d = [] then none else some d) = some d
    rw [if_neg hs]

/-- Rendering one class depends only on its first two items. -/
theorem renderClass_take_two (cs : ClassSummary) :
    renderClass ⟨cs.className, cs.items.take 2⟩ = renderClass cs := by
  unfold renderClass
  simp [List.take_take]

set_option maxRecDepth 10000 in
/-- C7 counterexample: a context with a single 600-character class name
    renders to a string longer than 500 characters, so the output length
    of the formatter is not bounded by 500. -/
theorem renderContext_can_exceed_500 :
    500 < (renderContext ⟨[⟨List.replicate 600 'a', [⟨chars "x", none⟩]⟩], 0, chars "ok"⟩).length := by
  decide

/-- C7 (amended): the formatter shows at most two items per class — its
    output is unchanged by truncating every class to its first two items
    — and an empty perClass renders the fixed no-pending-items sentinel;
    but the output length grows with the number of classes and the length
    of names, so it is not bounded by any constant. -/
theorem renderContext_cap_and_sentinel (ctx : AggregatedContext) :
    renderContext (capItemsAtTwo ctx) = renderContext ctx
    ∧ (ctx.perClass = [] →
        renderContext ctx = chars "No pending items found or mapping empty.") := by
  constructor
  · unfold renderContext capItemsAtTwo
    simp only [List.map_map]
    have hmap : ctx.perClass.map
          (renderClass ∘ fun cs => (⟨cs.className, cs.items.take 2⟩ : ClassSummary))
        = ctx.perClass.map renderClass :=
      List.map_congr_left (fun cs _ => renderClass_take_two cs)
    rw [hmap]
  · intro h
    unfold renderContext
    rw [h]
    rfl

/-- C7 witness: the empty context renders the sentinel phrase. -/
theorem renderContext_cap_and_sentinel_witness :
    renderContext ⟨[], 3, chars "ok"⟩ = chars "No pending items found or mapping empty." :=
  (renderContext_cap_and_sentinel ⟨[], 3, chars "ok"⟩).2 rfl

/-- C3 counterexample: with the task-store token absent the aggregator
    returns the reason string "missing_notion_env", not the
    "missing_config" value the claim states. -/
theorem fetchContext_missing_env_reason_not_missing_config :
    (fetchContextFromNotion ⟨[], chars "db", chars "A:B", [], []⟩ .errorObj
        (fun _ => .errorObj)).reason ≠ chars "missing_config" := by decide

/-- C3 (amended): whenever the token or the database id is absent, the
    aggregator short-circuits and deterministically returns empty
    perClass, doneApprox 0, and reason "missing_notion_env". -/
theorem fetchContext_missing_env_result (env : NotionEnv) (doneResp : QueryOutcome)
    (pending : Nat → QueryOutcome) (h : env.token = [] ∨ env.dbId = []) :
    fetchContextFromNotion env doneResp pending = ⟨[], 0, chars "missing_notion_env"⟩ := by
  unfold fetchContextFromNotion
  rw [if_pos h]

/-- C3 witness: the short-circuit result on a concrete environment with
    an empty token. -/
theorem fetchContext_missing_env_result_witness :
    fetchContextFromNotion ⟨[], chars "db", chars "A:B", [], []⟩ .errorObj
        (fun _ => .errorObj) = ⟨[], 0, chars "missing_notion_env"⟩ :=
  fetchContext_missing_env_result _ _ _ (Or.inl rfl)

/-- C10: the done count is computed from the done query independently of
    the pending queries: when the done query returns five pages and every
    pending query fails, the aggregator returns reason
    "notion_empty_or_mismatch" together with a strictly positive
    doneApprox of 5. -/
theorem fetchContext_doneApprox_independent :
    fetchContextFromNotion ⟨chars "t", chars "d", chars "A:B", [], []⟩
        (.ok [[], [], [], [], []]) (fun _ => .errorObj)
      = ⟨[], 5, chars "notion_empty_or_mismatch"⟩
    ∧ 0 < (fetchContextFromNotion ⟨chars "t", chars "d", chars "A:B", [], []⟩
        (.ok [[], [], [], [], []]) (fun _ => .errorObj)).doneApprox := by decide

/-- C2 counterexample: under a persistently failing oracle the OpenRouter
    caller of src/api/snark.js performs 2 total attempts, not 3, while
    still returning a null snark; its result record carries no attempts
    field at all. -/
theorem callOpenRouter_two_attempts_not_three :
    callOpenRouterAttempts (fun _ => .threw (chars "timeout")) = 2
    ∧ (callOpenRouter (fun _ => .threw (chars "timeout"))).snark = none
    ∧ (2 : Nat) ≠ 3 := by decide

/-- C2 (amended): when every attempt fails, callOpenRouter
    (src/api/snark.js) stops after 2 total attempts with backoff sleeps
    of 250ms and 500ms and returns a null snark with the last error,
    while the callOpenAI variant (src/unnamed/part_000) stops after 3
    total attempts with backoff sleeps 250ms, 500ms, 750ms and returns a
    record with null snark and attempts equal to 3. -/
theorem remoteGenerate_exhaustion_behavior (oracle : Nat → AttemptOutcome)
    (h : ∀ i, i < 3 → stepFails 300 (oracle i) = true) :
    (callOpenRouter oracle).snark = none
    ∧ (callOpenRouter oracle).error.isSome = true
    ∧ callOpenRouterAttempts oracle = 2
    ∧ callOpenRouterSleeps oracle = [250, 500]
    ∧ (callOpenAI oracle).snark = none
    ∧ (callOpenAI oracle).attempts = 3
    ∧ callOpenAISleeps oracle = [250, 500, 750] := by
  have h0 := h 0 (by decide)
  have h1 := h 1 (by decide)
  have h2 := h 2 (by decide)
  cases e0 : attemptStep 300 (oracle 0) with
  | ok t => simp [stepFails, e0] at h0
  | error m0 =>
    cases e1 : attemptStep 300 (oracle 1) with
    | ok t => simp [stepFails, e1] at h1
    | error m1 =>
      cases e2 : attemptStep 300 (oracle 2) with
      | ok t => simp [stepFails, e2] at h2
      | error m2 =>
        refine ⟨?_, ?_, ?_, ?_, ?_, ?_, ?_⟩ <;>
          simp [callOpenRouter, callOpenRouterAttempts, callOpenRouterSleeps,
            callOpenAI, callOpenAISleeps, e0, e1, e2]

/-- C2 witness: the exhaustion behaviour at a concrete persistently
    failing oracle. -/
theorem remoteGenerate_exhaustion_behavior_witness :
    (callOpenRouter (fun _ => AttemptOutcome.threw (chars "down"))).snark = none
    ∧ (callOpenRouter (fun _ => AttemptOutcome.threw (chars "down"))).error.isSome = true
    ∧ callOpenRouterAttempts (fun _ => AttemptOutcome.threw (chars "down")) = 2
    ∧ callOpenRouterSleeps (fun _ => AttemptOutcome.threw (chars "down")) = [250, 500]
    ∧ (callOpenAI (fun _ => AttemptOutcome.threw (chars "down"))).snark = none
    ∧ (callOpenAI (fun _ => AttemptOutcome.threw (chars "down"))).attempts = 3
    ∧ callOpenAISleeps (fun _ => AttemptOutcome.threw (chars "down")) = [250, 500, 750] :=
  remoteGenerate_exhaustion_behavior (fun _ => AttemptOutcome.threw (chars "down"))
    (fun i _ => by
      show stepFails 300 (AttemptOutcome.threw (chars "down")) = true
      decide)

/-- C1 counterexample: when the try block of the src/api/snark.js handler
    throws, the response has status 500 and carries the Server error JSON
    object, not a 200 status with a sentinel remark body. -/
theorem snarkHandler_internal_failure_not_200 :
    snarkHandler false [] [] (.threw (chars "boom"))
      = ⟨500, chars "public, s-maxage=30", .serverErrorBody (chars "Server error: boom")⟩
    ∧ (snarkHandler false [] [] (.threw (chars "boom"))).status ≠ 200 := by decide

/-- C1 (amended): neither handler propagates an internal failure — each
    maps every thrown exception to a definite response — but they differ:
    the src/api/snark.js handler responds with status 500 and an explicit
    Server error body, while the src/unnamed/part_001 handler responds
    with status 200 and the fixed non-empty sentinel remark. -/
theorem handlers_internal_failure_responses (e modelEnv classMapRaw : Str)
    (debug : Bool) (k : Nat) :
    snarkHandler debug modelEnv classMapRaw (.threw e)
      = ⟨500, chars "public, s-maxage=30", .serverErrorBody (chars "Server error: " ++ e)⟩
    ∧ handlerV1 debug classMapRaw k (.threw e)
      = ⟨200, chars "no-store", .snarkBody (chars "APIs moody. Consider this a mercy recess.")⟩
    ∧ chars "APIs moody. Consider this a mercy recess." ≠ [] :=
  ⟨rfl, rfl, by decide⟩

/-- C4 counterexample: two runs of the local fallback generation with the
    same date seed and the same salt but different random draws return
    different lines, so the output is not determined by date and salt. -/
theorem localGenerate_same_date_salt_different_output :
    localGenerate (chars "2025-10-11") (chars "s") false 0
      ≠ localGenerate (chars "2025-10-11") (chars "s") false 1 := by decide

/-- C4 (amended): the local fallback line is a function of the context
    flag and the unseeded random draw alone; the date seed and the salt
    do not influence it at all. -/
theorem localGenerate_ignores_date_salt (d₁ s₁ d₂ s₂ : Str) (hasCtx : Bool) (k : Nat) :
    localGenerate d₁ s₁ hasCtx k = localGenerate d₂ s₂ hasCtx k := rfl

end Snark
